import Mathlib

/-!
Verification of the photochrono identity-clustering and tag-propagation core.

Shallow embedding of the relevant parts of `src/app/ui_tagging.py`,
`src/app/pipelines/propagate_tags.py` and `src/app/pipelines/face.py`.

Modelling conventions:
* SQLite tables are lists of row structures; row order models rowid /
  insertion order, which is the order an un-`ORDER BY`ed `SELECT` returns.
  `INSERT` appends, `UPDATE` edits in place, `DELETE` filters.
* `INTEGER` columns are `Int`, `TEXT` columns are `String`.  `REAL`
  columns that are only ever stored and copied (bounding boxes,
  confidences) are carried as `ℚ`; embedding vectors, on which the
  clusterer does arithmetic, are `List ℝ`.  Float literals are read at
  their decimal value (`0.68` as `17/25`, `1e-9` as `1/10^9`).
* `sqlite3.Connection.total_changes` (cumulative count of changed rows
  since the connection opened) is threaded explicitly as a `Nat`.
* Python set iteration order is modelled as first-occurrence order of the
  underlying `DISTINCT` scan.
-/

/-- One row of the `photo_tags` table
(key `(photo_id, tag_type, tag_value)`). -/
structure TagRow where
  photo_id : Int
  tag_type : String
  tag_value : String
  source : String
  confidence : ℚ
deriving DecidableEq

/-- Rows of `photo_tags` for one photo (`WHERE photo_id=?`). -/
def tags_for (tags : List TagRow) (pid : Int) : List TagRow :=
  tags.filter (fun r => r.photo_id == pid)

/-- Date rows of `photo_tags` for one photo
(`WHERE photo_id=? AND tag_type='date'`). -/
def date_tags_for (tags : List TagRow) (pid : Int) : List TagRow :=
  tags.filter (fun r => r.photo_id == pid && r.tag_type == "date")

/-- Whether some row matches the primary key `(photo_id, tag_type, tag_value)`. -/
def has_key (tags : List TagRow) (pid : Int) (ttype tval : String) : Bool :=
  tags.any (fun r => r.photo_id == pid && r.tag_type == ttype && r.tag_value == tval)

/-- Generic `INSERT ... ON CONFLICT(photo_id, tag_type, tag_value) DO UPDATE SET
source=excluded.source, confidence=excluded.confidence`: on a key hit the
matching row's source/confidence are overwritten in place, otherwise the new
row is appended. -/
def upsert_tag (tags : List TagRow) (pid : Int) (ttype tval src : String)
    (conf : ℚ) : List TagRow :=
  if has_key tags pid ttype tval then
    tags.map (fun r =>
      if r.photo_id == pid && r.tag_type == ttype && r.tag_value == tval then
        { r with source := src, confidence := conf }
      else r)
  else
    tags ++ [⟨pid, ttype, tval, src, conf⟩]

/-- `upsert_person_tag(conn, photo_id, person_id, source, conf)` from
`src/app/ui_tagging.py` lines 136-144: upsert of the
`(photo_id,'person',str(person_id))` row, last writer wins. -/
def upsert_person_tag (tags : List TagRow) (photo_id person_id : Int)
    (source : String) (conf : ℚ) : List TagRow :=
  upsert_tag tags photo_id "person" (toString person_id) source conf

/-- `replace_date_tag(conn, photo_id, iso_dt, source, conf)` from
`src/app/ui_tagging.py` lines 147-155: `DELETE FROM photo_tags WHERE
photo_id=? AND tag_type='date'` then one `INSERT`. -/
def replace_date_tag (tags : List TagRow) (photo_id : Int) (iso_dt : String)
    (source : String) (conf : ℚ) : List TagRow :=
  (tags.filter (fun r => !(r.photo_id == photo_id && r.tag_type == "date")))
    ++ [⟨photo_id, "date", iso_dt, source, conf⟩]

/-- `INSERT ... ON CONFLICT(photo_id, tag_type, tag_value) DO NOTHING`,
returning the new table and the number of rows changed (0 or 1), as
`sqlite3` counts them for `total_changes`. -/
def insert_tag_do_nothing (tags : List TagRow) (pid : Int)
    (ttype tval src : String) (conf : ℚ) : List TagRow × Nat :=
  if has_key tags pid ttype tval then (tags, 0)
  else (tags ++ [⟨pid, ttype, tval, src, conf⟩], 1)

/-- `fetch_phash` / `photos_by_phash` operate on the `phash` table,
modelled as a list of `(photo_id, phash_hex)` pairs. -/
def photos_by_phash (ph : List (Int × String)) (phash_hex : String) : List Int :=
  (ph.filter (fun p => p.2 == phash_hex)).map (·.1)

/-- `fetch_phash(conn, photo_id)` from `src/app/ui_tagging.py` lines 158-161. -/
def fetch_phash (ph : List (Int × String)) (photo_id : Int) : Option String :=
  (ph.find? (fun p => p.1 == photo_id)).map (·.2)

/-- One row of the `face_boxes` table (key `(photo_id, face_id)`).
`embedding` is the decoded float32 blob (`none` models SQL NULL). -/
structure FaceRow where
  photo_id : Int
  face_id : Int
  x : ℚ
  y : ℚ
  w : ℚ
  h : ℚ
  embedding : Option (List ℝ)
  cluster_id : Option String
  assigned_person_id : Option Int
  source : String
  confidence : ℚ

/-- First-occurrence deduplication, the order in which `SELECT DISTINCT`
yields rows of a scanned table. -/
def distinct_aux [DecidableEq α] : List α → List α → List α
  | [], _ => []
  | a :: as, seen =>
      if a ∈ seen then distinct_aux as seen else a :: distinct_aux as (a :: seen)

/-- `SELECT DISTINCT` over a scan, keeping first occurrences. -/
def distinct_list [DecidableEq α] (l : List α) : List α :=
  distinct_aux l []

/-- `SELECT DISTINCT cluster_id FROM face_boxes WHERE photo_id=? AND
cluster_id IS NOT NULL`. -/
def clusters_in_photo (faces : List FaceRow) (photo_id : Int) : List String :=
  distinct_list (faces.filterMap (fun r =>
    if r.photo_id == photo_id then r.cluster_id else none))

/-- `SELECT DISTINCT photo_id FROM face_boxes WHERE cluster_id IN (...)`,
then collected into a Python set (iteration order modelled as
first-occurrence order). -/
def target_photos (faces : List FaceRow) (cluster_ids : List String) : List Int :=
  distinct_list ((faces.filter (fun r =>
    match r.cluster_id with
    | some c => cluster_ids.contains c
    | none => false)).map (·.photo_id))

/-- The per-target loop body of `propagate_person_from_photo`
(`src/app/pipelines/propagate_tags.py` lines 103-109): insert-or-ignore the
propagated tag, then `inserted += int(conn.total_changes > 0)` where
`total_changes` is cumulative over the connection. -/
def propagate_person_loop (person_id : Int) :
    List Int → List TagRow → Nat → Nat → List TagRow × Nat × Nat
  | [], tags, tc, inserted => (tags, tc, inserted)
  | pid :: rest, tags, tc, inserted =>
      let (tags', ch) := insert_tag_do_nothing tags pid "person"
        (toString person_id) "propagated_cluster" (9/10)
      let tc' := tc + ch
      let inserted' := inserted + (if 0 < tc' then 1 else 0)
      propagate_person_loop person_id rest tags' tc' inserted'

/-- `propagate_person_from_photo(db, photo_id, person_id)` from
`src/app/pipelines/propagate_tags.py` lines 78-112.  `tc0` is the
connection's `total_changes` on entry (0 for a fresh connection).
Returns the new `photo_tags` table, the final `total_changes` and the
function's return value `max(0, inserted - (1 if photo_id in target_ids else 0))`. -/
def propagate_person_from_photo (faces : List FaceRow) (tags : List TagRow)
    (tc0 : Nat) (photo_id person_id : Int) : List TagRow × Nat × Int :=
  let clus := clusters_in_photo faces photo_id
  if clus.isEmpty then (tags, tc0, 0)
  else
    let targets := target_photos faces clus
    let (tags', tc', inserted) := propagate_person_loop person_id targets tags tc0 0
    (tags', tc', max 0 ((inserted : Int) - (if targets.contains photo_id then 1 else 0)))

/-- `_save_date_replace(iso_dt)` from `src/app/ui_tagging.py` lines 730-751:
replace the current photo's date with a human tag, then, when "apply to
duplicates" is checked and the item has a phash, run `replace_date_tag`
with `source="propagated", conf=0.95` for every photo of the phash group
(as returned by `photos_by_phash`).  Returns the tag table and the `dupes`
list used for the status message. -/
def save_date_replace (tags : List TagRow) (ph : List (Int × String))
    (photo_id : Int) (cur_phash : Option String) (applyToDupes : Bool)
    (iso_dt : String) : List TagRow × List Int :=
  let t1 := replace_date_tag tags photo_id iso_dt "human" 1
  match applyToDupes, cur_phash with
  | true, some hx =>
      let dupes := photos_by_phash ph hx
      (dupes.foldl (fun t pid => replace_date_tag t pid iso_dt "propagated" (19/20)) t1,
        dupes)
  | _, _ => (t1, [])

/-- Insertion into a sorted `Int` list, used to model Python's `sorted(...)`. -/
def sorted_insert_int (a : Int) : List Int → List Int
  | [] => [a]
  | b :: bs => if a ≤ b then a :: b :: bs else b :: sorted_insert_int a bs

/-- Python `sorted(set)` over ints. -/
def sort_ints : List Int → List Int
  | [] => []
  | a :: as => sorted_insert_int a (sort_ints as)

/-- `_clear_person_faces` from `src/app/ui_tagging.py` lines 834-887:
collect the affected person ids from the selected faces of the current
photo, clear `assigned_person_id` on exactly those rows, delete the
photo's `propagated_cluster` person tags for those people, then delete
the photo's person tag for any of those people with no remaining assigned
face in this photo. -/
def clear_person_faces (faces : List FaceRow) (tags : List TagRow)
    (photo_id : Int) (face_ids : List Int) : List FaceRow × List TagRow :=
  let selected := faces.filter (fun r =>
    r.photo_id == photo_id && face_ids.contains r.face_id)
  let person_ids := sort_ints (distinct_list (selected.filterMap (·.assigned_person_id)))
  let faces' := faces.map (fun r =>
    if r.photo_id == photo_id && face_ids.contains r.face_id then
      { r with assigned_person_id := none }
    else r)
  let tags1 := person_ids.foldl (fun t pid =>
    t.filter (fun r => !(r.photo_id == photo_id && r.tag_type == "person"
      && r.tag_value == toString pid && r.source == "propagated_cluster"))) tags
  let tags2 := person_ids.foldl (fun t pid =>
    if (faces'.filter (fun r =>
        r.photo_id == photo_id && r.assigned_person_id == some pid)).length = 0 then
      t.filter (fun r => !(r.photo_id == photo_id && r.tag_type == "person"
        && r.tag_value == toString pid))
    else t) tags1
  (faces', tags2)

/-- A row of the (schema-sniffed) photos table, reduced to the columns
`propagate_date_neighbors` reads: id, path, and the optional date column. -/
structure PhotoRow where
  id : Int
  path : String
  dateStr : Option String

/-- `os.path.dirname`: everything before the last path separator. -/
def dir_name (p : String) : String :=
  String.intercalate "/" (p.splitOn "/").dropLast

/-- The per-candidate loop body of `propagate_date_neighbors`
(`src/app/pipelines/propagate_tags.py` lines 157-192), parametric in the
external clocks: `parseIso` models `datetime.fromisoformat` and `mtimeOf`
models `os.path.getmtime` (with `none` for the exception path), both
yielding seconds. -/
def propagate_date_loop (parseIso : String → Option ℚ) (mtimeOf : String → Option ℚ)
    (photo_id : Int) (iso_dt : String) (base_dt : ℚ) (window_minutes : ℚ)
    (only_if_missing_human : Bool) :
    List PhotoRow → List TagRow → Nat → List TagRow × Nat
  | [], tags, updated => (tags, updated)
  | p :: rest, tags, updated =>
      if p.id == photo_id then
        propagate_date_loop parseIso mtimeOf photo_id iso_dt base_dt window_minutes
          only_if_missing_human rest tags updated
      else if only_if_missing_human &&
          tags.any (fun r => r.photo_id == p.id && r.tag_type == "date"
            && r.source == "human") then
        propagate_date_loop parseIso mtimeOf photo_id iso_dt base_dt window_minutes
          only_if_missing_human rest tags updated
      else
        match (match p.dateStr.bind parseIso with
               | some t => some t
               | none => mtimeOf p.path) with
        | none =>
            propagate_date_loop parseIso mtimeOf photo_id iso_dt base_dt window_minutes
              only_if_missing_human rest tags updated
        | some neigh_dt =>
            if |neigh_dt - base_dt| / 60 ≤ window_minutes then
              propagate_date_loop parseIso mtimeOf photo_id iso_dt base_dt window_minutes
                only_if_missing_human rest
                (upsert_tag tags p.id "date" iso_dt "propagated_time" (3/4))
                (updated + 1)
            else
              propagate_date_loop parseIso mtimeOf photo_id iso_dt base_dt window_minutes
                only_if_missing_human rest tags updated

/-- `propagate_date_neighbors(db, photo_id, iso_dt, window_minutes,
same_folder_only, only_if_missing_human)` from
`src/app/pipelines/propagate_tags.py` lines 124-195. -/
def propagate_date_neighbors (parseIso : String → Option ℚ)
    (mtimeOf : String → Option ℚ) (photos : List PhotoRow) (tags : List TagRow)
    (photo_id : Int) (iso_dt : String) (window_minutes : ℚ)
    (same_folder_only only_if_missing_human : Bool) : List TagRow × Nat :=
  match photos.find? (fun p => p.id == photo_id) with
  | none => (tags, 0)
  | some row =>
      match parseIso iso_dt with
      | none => (tags, 0)
      | some base_dt =>
          let base_dir := dir_name row.path
          let candidates := if same_folder_only then
              photos.filter (fun p => (base_dir ++ "/").isPrefixOf p.path)
            else photos
          propagate_date_loop parseIso mtimeOf photo_id iso_dt base_dt
            window_minutes only_if_missing_human candidates tags 0

/-! ## The incremental clusterer (`src/app/pipelines/face.py`)

Embedding vectors are `List ℝ`; numpy's elementwise vector arithmetic is
`List.map` / `List.zipWith`.  `np.dot` on 1-D arrays of unequal length
raises, which the embedding surfaces as `Except.error`. -/

/-- Elementwise vector sum (`numpy +` on equal-length 1-D arrays). -/
noncomputable def vadd (a b : List ℝ) : List ℝ := List.zipWith (· + ·) a b

/-- Scalar times vector (`numpy *`). -/
noncomputable def vsmul (t : ℝ) (a : List ℝ) : List ℝ := a.map (fun x => t * x)

/-- Vector divided by scalar (`numpy /`). -/
noncomputable def vdiv (a : List ℝ) (t : ℝ) : List ℝ := a.map (fun x => x / t)

/-- Sum of squares of the entries; `np.linalg.norm v = Real.sqrt (sumSq v)`. -/
noncomputable def sumSq (v : List ℝ) : ℝ := (v.map (fun x => x * x)).sum

/-- `np.linalg.norm` (Euclidean norm of a 1-D array). -/
noncomputable def l2norm (v : List ℝ) : ℝ := Real.sqrt (sumSq v)

/-- The `1e-9` guard of `_l2_normalize`, read at its decimal value. -/
noncomputable def eps : ℝ := 1 / 1000000000

/-- `_l2_normalize(v)` from `src/app/pipelines/face.py` lines 123-125:
`v / (np.linalg.norm(v) + 1e-9)`. -/
noncomputable def l2_normalize (v : List ℝ) : List ℝ :=
  v.map (fun x => x / (l2norm v + eps))

/-- Raw dot product of two equal-length 1-D arrays. -/
noncomputable def dotRaw (a b : List ℝ) : ℝ := (List.zipWith (· * ·) a b).sum

/-- `float(np.dot(e, c))`: numpy raises `ValueError` when the 1-D shapes
are not aligned, surfaced here as an `Except.error`. -/
noncomputable def dotE (a b : List ℝ) : Except String ℝ :=
  if a.length = b.length then .ok (dotRaw a b) else .error "shapes not aligned"

/-- `np.argmax` over a nonempty list tail: first index of the maximum
(strictly larger values displace the running best). -/
noncomputable def argmax_aux : List ℝ → Nat → Nat → ℝ → Nat × ℝ
  | [], _, bi, bv => (bi, bv)
  | x :: xs, i, bi, bv =>
      if bv < x then argmax_aux xs (i + 1) i x else argmax_aux xs (i + 1) bi bv

/-- `idx = int(np.argmax(csims)); return idx, csims[idx]` (first maximum). -/
noncomputable def argmax_list : List ℝ → Nat × ℝ
  | [] => (0, 0)
  | x :: xs => argmax_aux xs 1 0 x

/-- The similarity list `csims = [float(np.dot(e, c)) for c in centroids]`,
evaluated left to right; the first shape mismatch aborts. -/
noncomputable def dot_list (e : List ℝ) : List (List ℝ) → Except String (List ℝ)
  | [] => .ok []
  | c :: cs =>
      match dotE e c with
      | .error m => .error m
      | .ok s =>
          match dot_list e cs with
          | .error m => .error m
          | .ok ss => .ok (s :: ss)

/-- `best_cluster(e)` from `src/app/pipelines/face.py` lines 227-232:
`none` models the `(-1, -1.0)` no-centroids sentinel, otherwise the index
of the most similar centroid with its cosine similarity.  A shape mismatch
in any `np.dot` aborts (numpy `ValueError`). -/
noncomputable def best_cluster (e : List ℝ) (centroids : List (List ℝ)) :
    Except String (Option (Nat × ℝ)) :=
  match centroids with
  | [] => .ok none
  | cs =>
      match dot_list e cs with
      | .error m => .error m
      | .ok sims => .ok (some (argmax_list sims))

/-- The clusterer's working state: parallel lists of centroids and member
key lists, as in `_cluster_embeddings` lines 223-225. -/
structure ClusterState where
  centroids : List (List ℝ)
  members : List (List (Int × Int))

/-- The running-mean centroid update of `_cluster_embeddings` lines 238-242:
`normalize((c*(n-1) + e) / n)` where `n` is the member count after the
append. -/
noncomputable def update_centroid (c : List ℝ) (n : Nat) (e : List ℝ) : List ℝ :=
  l2_normalize (vdiv (vadd (vsmul ((n : ℝ) - 1) c) e) (n : ℝ))

/-- One iteration of the assignment loop of `_cluster_embeddings`
(lines 234-245): join the best cluster when `idx >= 0 and sim >= threshold`,
otherwise found a new cluster with the embedding as sole member and centroid. -/
noncomputable def step_item (thr : ℝ) (st : ClusterState) (pid fid : Int)
    (emb : List ℝ) : Except String ClusterState :=
  match best_cluster emb st.centroids with
  | .error msg => .error msg
  | .ok none => .ok ⟨st.centroids ++ [emb], st.members ++ [[(pid, fid)]]⟩
  | .ok (some (idx, sim)) =>
      if thr ≤ sim then
        let m' := (st.members.getD idx []) ++ [(pid, fid)]
        let c' := update_centroid (st.centroids.getD idx []) m'.length emb
        .ok ⟨st.centroids.set idx c', st.members.set idx m'⟩
      else .ok ⟨st.centroids ++ [emb], st.members ++ [[(pid, fid)]]⟩

/-- The full assignment loop over the item list, left to right. -/
noncomputable def run_cluster (thr : ℝ) :
    List (Int × Int × List ℝ) → ClusterState → Except String ClusterState
  | [], st => .ok st
  | (pid, fid, e) :: rest, st =>
      match step_item thr st pid fid e with
      | .error msg => .error msg
      | .ok st' => run_cluster thr rest st'

/-- Item preparation of `_cluster_embeddings` lines 213-219: rows with a
non-NULL embedding, skipping zero-size blobs, each embedding normalized. -/
noncomputable def load_items (rows : List FaceRow) : List (Int × Int × List ℝ) :=
  rows.filterMap (fun r =>
    match r.embedding with
    | none => none
    | some e =>
        if e.length = 0 then none
        else some (r.photo_id, r.face_id, l2_normalize e))

/-- Zero-padded cluster label `f"C{ci:05d}"`. -/
def label_of (ci : Nat) : String :=
  let s := toString ci
  "C" ++ String.mk (List.replicate (5 - s.length) '0') ++ s

/-- `UPDATE face_boxes SET cluster_id=? WHERE photo_id=? AND face_id=?`. -/
def set_cluster (db : List FaceRow) (pid fid : Int) (lbl : String) : List FaceRow :=
  db.map (fun r =>
    if r.photo_id == pid && r.face_id == fid then { r with cluster_id := some lbl }
    else r)

/-- The `executemany` writing one cluster's label to all its members. -/
def apply_one (db : List FaceRow) (m : List (Int × Int)) (lbl : String) :
    List FaceRow :=
  m.foldl (fun d kv => set_cluster d kv.1 kv.2 lbl) db

/-- The write phase of `_cluster_embeddings` (lines 247-259): enumerate the
member lists; clusters below `min_examples` are skipped (their rows are not
written), larger ones get the label derived from their position `ci`. -/
def apply_labels_aux (minEx : Nat) :
    List (List (Int × Int)) → Nat → List FaceRow → List FaceRow
  | [], _, db => db
  | m :: ms, ci, db =>
      if minEx ≤ m.length then
        apply_labels_aux minEx ms (ci + 1) (apply_one db m (label_of ci))
      else apply_labels_aux minEx ms (ci + 1) db

/-- The write phase, started at cluster index 0. -/
def apply_labels (members : List (List (Int × Int))) (minEx : Nat)
    (db : List FaceRow) : List FaceRow :=
  apply_labels_aux minEx members 0 db

/-- `cluster_count`: the number of clusters meeting `min_examples`. -/
def count_big (members : List (List (Int × Int))) (minEx : Nat) : Nat :=
  (members.filter (fun m => minEx ≤ m.length)).length

/-- `FaceIndexer._cluster_embeddings(sim_threshold, min_examples)` from
`src/app/pipelines/face.py` lines 199-260: read the rows whose embedding is
not NULL (no `ORDER BY`: the scan order is the table's stored order), build
the normalized item list, run the greedy assignment loop, then write labels
for sufficiently large clusters.  Returns the updated table and the
function's return value. -/
noncomputable def cluster_embeddings (db : List FaceRow) (thr : ℝ)
    (minEx : Nat) : Except String (List FaceRow × Nat) :=
  let rows := db.filter (fun r => r.embedding.isSome)
  if rows.isEmpty then .ok (db, 0)
  else
    let items := load_items rows
    if items.isEmpty then .ok (db, 0)
    else
      match run_cluster thr items ⟨[], []⟩ with
      | .error msg => .error msg
      | .ok st => .ok (apply_labels st.members minEx db, count_big st.members minEx)

/-- Ascending `(photo_id, face_id)` comparison on face rows. -/
def key_le (a b : FaceRow) : Bool :=
  a.photo_id < b.photo_id || (a.photo_id == b.photo_id && a.face_id ≤ b.face_id)

/-- Insertion step of the spec-side ordered read. -/
def ordered_insert_face (r : FaceRow) : List FaceRow → List FaceRow
  | [] => [r]
  | x :: xs => if key_le r x then r :: x :: xs else x :: ordered_insert_face r xs

/-- Modelled from the spec: the read order the spec prescribes for a
clustering pass — "ascending photo_id then face_id" — as an insertion sort
of the stored table.  The source query itself has no `ORDER BY`. -/
def spec_sorted_read : List FaceRow → List FaceRow
  | [] => []
  | x :: xs => ordered_insert_face x (spec_sorted_read xs)

/-- Sum of a list of vectors (left as `[]` on the empty list). -/
noncomputable def vsum : List (List ℝ) → List ℝ
  | [] => []
  | [v] => v
  | v :: vs => vadd v (vsum vs)

/-- Modelled from the spec: the "unit-normalized mean of all member
embeddings" that P2 claims the centroid equals. -/
noncomputable def spec_normalized_mean (l : List (List ℝ)) : List ℝ :=
  l2_normalize (vdiv (vsum l) (l.length : ℝ))

/-- The cluster label a pass result records for the face keyed
`(pid, fid)` (outer `none`: pass failed or no such row; inner `Option`:
the `cluster_id` column, NULL as `none`). -/
noncomputable def cluster_of (res : Except String (List FaceRow × Nat))
    (pid fid : Int) : Option (Option String) :=
  res.toOption.bind (fun p =>
    (p.1.find? (fun r => r.photo_id == pid && r.face_id == fid)).map
      (fun r => r.cluster_id))

/-! ## Helper lemmas -/

/-- Filtering with a predicate that keeps every row of photo `B` does not
change that photo's tag slice. -/
theorem tags_for_filter (t : List TagRow) (p : TagRow → Bool) (B : Int)
    (h : ∀ r : TagRow, r.photo_id = B → p r = true) :
    tags_for (t.filter p) B = tags_for t B := by
  induction t with
  | nil => rfl
  | cons r rest ih =>
      by_cases hp : p r = true
      · by_cases hB : r.photo_id = B
        · simp only [tags_for, List.filter_cons, hp] at *
          simp [hB, ih]
        · have hBb : (r.photo_id == B) = false := by simpa using hB
          simp only [tags_for, List.filter_cons, hp] at *
          simp [hBb, ih]
      · have hB : ¬ r.photo_id = B := fun hx => hp (h r hx)
        have hBb : (r.photo_id == B) = false := by simpa using hB
        have hpf : p r = false := by simpa using hp
        simp only [tags_for, List.filter_cons, hpf, hBb] at *
        simp [hBb, ih]

/-- A fold whose steps preserve photo `B`'s tag slice preserves it. -/
theorem tags_for_foldl (B : Int) (f : List TagRow → Int → List TagRow)
    (hf : ∀ t pid, tags_for (f t pid) B = tags_for t B) :
    ∀ (l : List Int) (t : List TagRow), tags_for (l.foldl f t) B = tags_for t B := by
  intro l
  induction l with
  | nil => intro t; rfl
  | cons a as ih => intro t; rw [List.foldl_cons, ih, hf]

/-- Rows of `face_boxes` for one photo (`WHERE photo_id=?`). -/
def faces_for (faces : List FaceRow) (pid : Int) : List FaceRow :=
  faces.filter (fun r => r.photo_id == pid)

/-- Mapping rows with a photo-id-preserving function that leaves every row
of photo `B` unchanged does not change that photo's face slice. -/
theorem faces_for_map (faces : List FaceRow) (g : FaceRow → FaceRow) (B : Int)
    (hid : ∀ r : FaceRow, (g r).photo_id = r.photo_id)
    (h : ∀ r : FaceRow, r.photo_id = B → g r = r) :
    faces_for (faces.map g) B = faces_for faces B := by
  induction faces with
  | nil => rfl
  | cons r rest ih =>
      by_cases hB : r.photo_id = B
      · have hg := h r hB
        simp only [faces_for, List.map_cons, List.filter_cons, hg] at *
        simp [hB, ih]
      · have hBb : (r.photo_id == B) = false := by simpa using hB
        have hgBb : ((g r).photo_id == B) = false := by
          have : ¬ (g r).photo_id = B := by rw [hid r]; exact hB
          simpa using this
        simp only [faces_for, List.map_cons, List.filter_cons, hBb, hgBb] at *
        exact ih

/-! ## Claims -/

/-- Claim C1 (code bug).  With a fresh connection (`total_changes = 0`),
faces of photos 1 and 2 in one cluster, and photo 2 already tagged with
person 7, `propagate_person_from_photo(db, 1, 7)` returns 1 even though no
photo other than the source was newly affected (photo 2's tags are
unchanged; only the source photo 1 gained a tag).  The cumulative
`conn.total_changes > 0` test makes `inserted` count photo 2 as well, so
the returned count contradicts the function's own docstring ("number of
photos (excluding the current) newly labeled"). -/
theorem C1_propagate_count_eval :
    propagate_person_from_photo
        [⟨1, 0, 0, 0, 0, 0, none, some "C00000", none, "detector", 0⟩,
         ⟨2, 0, 0, 0, 0, 0, none, some "C00000", none, "detector", 0⟩]
        [⟨2, "person", "7", "human", 1⟩] 0 1 7
      = ([⟨2, "person", "7", "human", 1⟩,
          ⟨1, "person", "7", "propagated_cluster", 9/10⟩], 1, 1)
    ∧ tags_for
        (propagate_person_from_photo
          [⟨1, 0, 0, 0, 0, 0, none, some "C00000", none, "detector", 0⟩,
           ⟨2, 0, 0, 0, 0, 0, none, some "C00000", none, "detector", 0⟩]
          [⟨2, "person", "7", "human", 1⟩] 0 1 7).1 2
      = tags_for [⟨2, "person", "7", "human", 1⟩] 2 := by
  constructor
  · rfl
  · rfl

/-- Claim C2 (code bug).  Photo 1 and photo 2 share the exact phash
"abc"; saving a human date on photo 1 with "apply to duplicates" checked
rewrites photo 1's own freshly saved human tag too: `photos_by_phash`
includes the source photo, so its final date tag carries
`source="propagated"`, `confidence=0.95` instead of keeping the human
source the spec promises. -/
theorem C2_duplicate_overwrites_source_eval :
    save_date_replace [] [(1, "abc"), (2, "abc")] 1
        (fetch_phash [(1, "abc"), (2, "abc")] 1) true "2024-06-01T00:00:00"
      = ([⟨1, "date", "2024-06-01T00:00:00", "propagated", 19/20⟩,
          ⟨2, "date", "2024-06-01T00:00:00", "propagated", 19/20⟩], [1, 2])
    ∧ ¬ (⟨1, "date", "2024-06-01T00:00:00", "human", 1⟩ : TagRow) ∈
        (save_date_replace [] [(1, "abc"), (2, "abc")] 1
          (fetch_phash [(1, "abc"), (2, "abc")] 1) true "2024-06-01T00:00:00").1 := by
  constructor
  · rfl
  · decide

/-- Claim C3 (confirmed).  Applying date `D1` then `D2`, both with
`source="human"`, via `replace_date_tag` leaves exactly one date tag on
the photo: value `D2`, source `"human"`, confidence 1 — each call deletes
every date row of the photo before inserting its single new row. -/
theorem C3_date_replace_semantics (tags : List TagRow) (pid : Int)
    (d1 d2 : String) :
    date_tags_for
        (replace_date_tag (replace_date_tag tags pid d1 "human" 1) pid d2 "human" 1)
        pid
      = [⟨pid, "date", d2, "human", 1⟩] := by
  unfold date_tags_for replace_date_tag
  simp [List.filter_append, List.filter_filter]

/-- Claim C4 (counterexample).  A `photo_tags` row with `source="human"`
does not survive a propagated write through `upsert_person_tag`: the
`ON CONFLICT ... DO UPDATE` unconditionally overwrites source and
confidence, so the human row is silently replaced by the lower-priority
propagated one. -/
theorem C4_human_overwritten_counterexample :
    upsert_person_tag [⟨5, "person", "7", "human", 1⟩] 5 7 "propagated_cluster" (9/10)
      = [⟨5, "person", "7", "propagated_cluster", 9/10⟩]
    ∧ ¬ (⟨5, "person", "7", "human", 1⟩ : TagRow) ∈
        upsert_person_tag [⟨5, "person", "7", "human", 1⟩] 5 7 "propagated_cluster" (9/10) := by
  constructor
  · rfl
  · decide

/-- Claim C9 (confirmed).  Retraction is local: `_clear_person_faces` on
photo `A` only ever filters or updates rows with `photo_id = A`, so for
any other photo `B` both its tag rows and its face rows are left exactly
as they were — including person tags previously propagated from `A`. -/
theorem C9_retraction_locality (faces : List FaceRow) (tags : List TagRow)
    (photoA : Int) (faceIds : List Int) (B : Int) (hB : B ≠ photoA) :
    tags_for (clear_person_faces faces tags photoA faceIds).2 B = tags_for tags B
    ∧ faces_for (clear_person_faces faces tags photoA faceIds).1 B
      = faces_for faces B := by
  have hne : ∀ r : TagRow, r.photo_id = B → (r.photo_id == photoA) = false := by
    intro r hr
    rw [hr]
    simpa using fun hx => hB hx
  constructor
  · unfold clear_person_faces
    simp only
    rw [tags_for_foldl B _ (by
      intro t pid
      by_cases hc : (((faces.map (fun r =>
          if r.photo_id == photoA && faceIds.contains r.face_id then
            { r with assigned_person_id := none }
          else r)).filter (fun r =>
            r.photo_id == photoA && r.assigned_person_id == some pid)).length = 0)
      · simp only [hc, if_true]
        exact tags_for_filter t _ B (by
          intro r hr
          simp [hne r hr])
      · simp only [hc, if_false]), ]
    exact tags_for_foldl B _ (by
      intro t pid
      exact tags_for_filter t _ B (by
        intro r hr
        simp [hne r hr])) _ _
  · unfold clear_person_faces
    simp only
    apply faces_for_map
    · intro r
      dsimp only
      split
      · rfl
      · rfl
    · intro r hr
      have : (r.photo_id == photoA) = false := by
        rw [hr]
        simpa using fun hx => hB hx
      simp [this]

/-- Witness for C9 at a concrete store: clearing person assignments on
photo 1 leaves photo 2's tag and face rows untouched. -/
theorem C9_retraction_locality_witness :
    tags_for (clear_person_faces
        [⟨1, 0, 0, 0, 0, 0, none, some "C00000", some 7, "detector", 0⟩,
         ⟨2, 0, 0, 0, 0, 0, none, some "C00000", some 7, "detector", 0⟩]
        [⟨1, "person", "7", "face", 1⟩, ⟨2, "person", "7", "propagated_cluster", 9/10⟩]
        1 [0]).2 2
      = tags_for
          [⟨1, "person", "7", "face", 1⟩, ⟨2, "person", "7", "propagated_cluster", 9/10⟩] 2
    ∧ faces_for (clear_person_faces
        [⟨1, 0, 0, 0, 0, 0, none, some "C00000", some 7, "detector", 0⟩,
         ⟨2, 0, 0, 0, 0, 0, none, some "C00000", some 7, "detector", 0⟩]
        [⟨1, "person", "7", "face", 1⟩, ⟨2, "person", "7", "propagated_cluster", 9/10⟩]
        1 [0]).1 2
      = faces_for
          [⟨1, 0, 0, 0, 0, 0, none, some "C00000", some 7, "detector", 0⟩,
           ⟨2, 0, 0, 0, 0, 0, none, some "C00000", some 7, "detector", 0⟩] 2 :=
  C9_retraction_locality _ _ 1 [0] 2 (by decide)

/-- Mapping rows with a photo-id-preserving function that leaves every row
of photo `B` unchanged does not change that photo's tag slice. -/
theorem tags_for_map (t : List TagRow) (g : TagRow → TagRow) (B : Int)
    (hid : ∀ r : TagRow, (g r).photo_id = r.photo_id)
    (h : ∀ r : TagRow, r.photo_id = B → g r = r) :
    tags_for (t.map g) B = tags_for t B := by
  induction t with
  | nil => rfl
  | cons r rest ih =>
      by_cases hB : r.photo_id = B
      · have hg := h r hB
        simp only [tags_for, List.map_cons, List.filter_cons, hg] at *
        simp [hB, ih]
      · have hBb : (r.photo_id == B) = false := by simpa using hB
        have hgBb : ((g r).photo_id == B) = false := by
          have : ¬ (g r).photo_id = B := by rw [hid r]; exact hB
          simpa using this
        simp only [tags_for, List.map_cons, List.filter_cons, hBb, hgBb] at *
        exact ih

/-- `upsert_tag` on photo `pid` leaves every other photo's tag slice
unchanged. -/
theorem tags_for_upsert_ne (tags : List TagRow) (pid : Int)
    (ttype tval src : String) (conf : ℚ) (q : Int) (hq : pid ≠ q) :
    tags_for (upsert_tag tags pid ttype tval src conf) q = tags_for tags q := by
  unfold upsert_tag
  by_cases hk : has_key tags pid ttype tval
  · simp only [hk, if_true]
    apply tags_for_map
    · intro r
      dsimp only
      split
      · rfl
      · rfl
    · intro r hr
      have : (r.photo_id == pid) = false := by
        rw [hr]
        simpa using fun hx => hq hx.symm
      simp [this]
  · simp only [hk, Bool.false_eq_true, if_false]
    unfold tags_for
    rw [List.filter_append]
    have : ((⟨pid, ttype, tval, src, conf⟩ : TagRow).photo_id == q) = false := by
      simpa using hq
    simp [this]

/-- Every pre-existing `photo_tags` row survives the `ON CONFLICT DO
NOTHING` loop of `propagate_person_from_photo` verbatim. -/
theorem mem_propagate_person_loop (person_id : Int) :
    ∀ (l : List Int) (tags : List TagRow) (tc inserted : Nat) (r : TagRow),
      r ∈ tags → r ∈ (propagate_person_loop person_id l tags tc inserted).1 := by
  intro l
  induction l with
  | nil => intro tags tc inserted r hr; exact hr
  | cons pid rest ih =>
      intro tags tc inserted r hr
      unfold propagate_person_loop insert_tag_do_nothing
      by_cases hk : has_key tags pid "person" (toString person_id)
      · simp only [hk, if_true]
        exact ih _ _ _ r hr
      · simp only [hk, if_false]
        exact ih _ _ _ r (List.mem_append_left _ hr)

/-- The candidate loop of `propagate_date_neighbors` with
`only_if_missing_human` leaves the tag slice of any photo carrying a
human-sourced date tag unchanged. -/
theorem date_loop_preserves_human (parseIso : String → Option ℚ)
    (mtimeOf : String → Option ℚ) (photo_id : Int) (iso_dt : String)
    (base_dt window : ℚ) (q : Int) :
    ∀ (cands : List PhotoRow) (tags : List TagRow) (updated : Nat),
      (tags.any (fun r => r.photo_id == q && r.tag_type == "date"
        && r.source == "human")) = true →
      tags_for (propagate_date_loop parseIso mtimeOf photo_id iso_dt base_dt
          window true cands tags updated).1 q
        = tags_for tags q := by
  intro cands
  induction cands with
  | nil => intro tags updated _; rfl
  | cons p rest ih =>
      intro tags updated h
      unfold propagate_date_loop
      by_cases hpid : (p.id == photo_id) = true
      · simp only [hpid, if_true]
        exact ih tags updated h
      · simp only [hpid, Bool.false_eq_true, if_false]
        by_cases hpq : p.id = q
        · have hcheck : (true && tags.any (fun r => r.photo_id == p.id
              && r.tag_type == "date" && r.source == "human")) = true := by
            rw [hpq]
            simpa using h
          simp only [hcheck, if_true]
          exact ih tags updated h
        · by_cases hcheck : (true && tags.any (fun r => r.photo_id == p.id
              && r.tag_type == "date" && r.source == "human")) = true
          · simp only [hcheck, if_true]
            exact ih tags updated h
          · simp only [hcheck, Bool.false_eq_true, if_false]
            cases hnt : (match p.dateStr.bind parseIso with
                         | some t => some t
                         | none => mtimeOf p.path) with
            | none => exact ih tags updated h
            | some nt =>
                by_cases hw : |nt - base_dt| / 60 ≤ window
                · simp only [hw, if_true]
                  have hpres := tags_for_upsert_ne tags p.id "date" iso_dt
                    "propagated_time" (3/4) q hpq
                  rw [ih _ _ (by
                    have hany : (tags.any (fun r => r.photo_id == q
                        && r.tag_type == "date" && r.source == "human")) =
                      ((upsert_tag tags p.id "date" iso_dt "propagated_time" (3/4)).any
                        (fun r => r.photo_id == q && r.tag_type == "date"
                          && r.source == "human")) := by
                      have e1 : ∀ t : List TagRow, (t.any (fun r => r.photo_id == q
                          && r.tag_type == "date" && r.source == "human"))
                          = (tags_for t q).any (fun r => r.tag_type == "date"
                            && r.source == "human") := by
                        intro t
                        unfold tags_for
                        rw [List.any_filter]
                        congr 1
                        funext r
                        rw [Bool.and_assoc]
                      rw [e1, e1, hpres]
                    rw [← hany]
                    exact h), hpres]
                · simp only [hw, if_false]
                  exact ih tags updated h

/-- Claim C4 (amended).  Within this codebase the protections are
path-specific, not universal: (1) `propagate_person_from_photo` inserts
with `ON CONFLICT DO NOTHING`, so every pre-existing row — in particular
every human-sourced one — survives verbatim; (2) `propagate_date_neighbors`
with its default `only_if_missing_human=True` never touches the tags of a
photo that already carries a human-sourced date tag; but (3)
`upsert_person_tag` is last-writer-wins: on a key conflict the new source
and confidence unconditionally replace the old ones, whatever the old
source was. -/
theorem C4_amended_source_protection :
    (∀ (faces : List FaceRow) (tags : List TagRow) (tc0 : Nat)
        (photo_id person_id : Int) (r : TagRow),
      r ∈ tags → r ∈ (propagate_person_from_photo faces tags tc0 photo_id person_id).1)
    ∧ (∀ (parseIso mtimeOf : String → Option ℚ) (photos : List PhotoRow)
        (tags : List TagRow) (photo_id : Int) (iso_dt : String)
        (window : ℚ) (sfo : Bool) (q : Int),
      (tags.any (fun r => r.photo_id == q && r.tag_type == "date"
        && r.source == "human")) = true →
      tags_for (propagate_date_neighbors parseIso mtimeOf photos tags photo_id
          iso_dt window sfo true).1 q
        = tags_for tags q)
    ∧ (∀ (tags : List TagRow) (photo_id person_id : Int) (src : String)
        (conf : ℚ) (r : TagRow),
      r ∈ tags → r.photo_id = photo_id → r.tag_type = "person" →
      r.tag_value = toString person_id →
      ({ r with source := src, confidence := conf } : TagRow) ∈
        upsert_person_tag tags photo_id person_id src conf) := by
  refine ⟨?_, ?_, ?_⟩
  · intro faces tags tc0 photo_id person_id r hr
    unfold propagate_person_from_photo
    by_cases hc : (clusters_in_photo faces photo_id).isEmpty
    · simp only [hc, if_true]
      exact hr
    · simp only [hc, Bool.false_eq_true, if_false]
      exact mem_propagate_person_loop person_id _ tags tc0 0 r hr
  · intro parseIso mtimeOf photos tags photo_id iso_dt window sfo q h
    unfold propagate_date_neighbors
    cases hf : photos.find? (fun p => p.id == photo_id) with
    | none => rfl
    | some row =>
        cases hp : parseIso iso_dt with
        | none => rfl
        | some base_dt =>
            exact date_loop_preserves_human parseIso mtimeOf photo_id iso_dt
              base_dt window q _ tags 0 h
  · intro tags photo_id person_id src conf r hr h1 h2 h3
    unfold upsert_person_tag upsert_tag
    have hmatch : (r.photo_id == photo_id && r.tag_type == "person"
        && r.tag_value == toString person_id) = true := by
      simp [h1, h2, h3]
    have hk : has_key tags photo_id "person" (toString person_id) = true := by
      unfold has_key
      rw [List.any_eq_true]
      exact ⟨r, hr, hmatch⟩
    simp only [hk, if_true]
    rw [List.mem_map]
    exact ⟨r, hr, by simp [hmatch]⟩

/-- Witness for C4 (amended), instantiating all three parts: a human person
tag survives `propagate_person_from_photo`; a photo with a human date tag
is untouched by `propagate_date_neighbors`; `upsert_person_tag` replaces a
human row's source and confidence. -/
theorem C4_amended_source_protection_witness :
    ((⟨2, "person", "7", "human", 1⟩ : TagRow) ∈
      (propagate_person_from_photo
        [⟨1, 0, 0, 0, 0, 0, none, some "C00000", none, "detector", 0⟩,
         ⟨2, 0, 0, 0, 0, 0, none, some "C00000", none, "detector", 0⟩]
        [⟨2, "person", "7", "human", 1⟩] 0 1 7).1)
    ∧ tags_for (propagate_date_neighbors (fun _ => some 0) (fun _ => some 0)
          [⟨1, "album/a.jpg", none⟩, ⟨3, "album/b.jpg", none⟩]
          [⟨3, "date", "2020-01-01T00:00:00", "human", 1⟩]
          1 "2020-01-01T00:10:00" 45 true true).1 3
        = tags_for [⟨3, "date", "2020-01-01T00:00:00", "human", 1⟩] 3
    ∧ (⟨5, "person", "7", "propagated_cluster", 9/10⟩ : TagRow) ∈
        upsert_person_tag [⟨5, "person", "7", "human", 1⟩] 5 7 "propagated_cluster" (9/10) :=
  ⟨C4_amended_source_protection.1 _ _ 0 1 7 _ (by decide),
   C4_amended_source_protection.2.1 _ _ _ _ 1 _ 45 true 3 (by decide),
   C4_amended_source_protection.2.2 _ 5 7 "propagated_cluster" (9/10)
     ⟨5, "person", "7", "human", 1⟩ (by decide) rfl rfl (by decide)⟩

/-- Every `face_boxes` column except `cluster_id` agrees between two rows. -/
def same_except_cluster (r r' : FaceRow) : Prop :=
  r'.photo_id = r.photo_id ∧ r'.face_id = r.face_id ∧ r'.x = r.x ∧ r'.y = r.y
    ∧ r'.w = r.w ∧ r'.h = r.h ∧ r'.embedding = r.embedding
    ∧ r'.assigned_person_id = r.assigned_person_id ∧ r'.source = r.source
    ∧ r'.confidence = r.confidence

theorem same_except_cluster_refl (r : FaceRow) : same_except_cluster r r :=
  ⟨rfl, rfl, rfl, rfl, rfl, rfl, rfl, rfl, rfl, rfl⟩

theorem same_except_cluster_trans {a b c : FaceRow}
    (h1 : same_except_cluster a b) (h2 : same_except_cluster b c) :
    same_except_cluster a c := by
  obtain ⟨p1, f1, x1, y1, w1, h1', e1, a1, s1, c1⟩ := h1
  obtain ⟨p2, f2, x2, y2, w2, h2', e2, a2, s2, c2⟩ := h2
  exact ⟨p2.trans p1, f2.trans f1, x2.trans x1, y2.trans y1, w2.trans w1,
    h2'.trans h1', e2.trans e1, a2.trans a1, s2.trans s1, c2.trans c1⟩

theorem forall₂_sec_refl (db : List FaceRow) :
    List.Forall₂ same_except_cluster db db := by
  induction db with
  | nil => exact List.Forall₂.nil
  | cons r rest ih => exact List.Forall₂.cons (same_except_cluster_refl r) ih

theorem forall₂_sec_map (db : List FaceRow) (g : FaceRow → FaceRow)
    (hg : ∀ r, same_except_cluster r (g r)) :
    List.Forall₂ same_except_cluster db (db.map g) := by
  induction db with
  | nil => exact List.Forall₂.nil
  | cons r rest ih => exact List.Forall₂.cons (hg r) ih

theorem forall₂_sec_trans {a b c : List FaceRow}
    (h1 : List.Forall₂ same_except_cluster a b)
    (h2 : List.Forall₂ same_except_cluster b c) :
    List.Forall₂ same_except_cluster a c := by
  induction h1 generalizing c with
  | nil => cases h2; exact List.Forall₂.nil
  | cons hr hrest ih =>
      cases h2 with
      | cons hr2 hrest2 =>
          exact List.Forall₂.cons (same_except_cluster_trans hr hr2) (ih hrest2)

theorem forall₂_sec_set_cluster (db : List FaceRow) (pid fid : Int) (lbl : String) :
    List.Forall₂ same_except_cluster db (set_cluster db pid fid lbl) := by
  apply forall₂_sec_map
  intro r
  dsimp only
  split
  · exact ⟨rfl, rfl, rfl, rfl, rfl, rfl, rfl, rfl, rfl, rfl⟩
  · exact same_except_cluster_refl r

theorem forall₂_sec_apply_one (m : List (Int × Int)) (lbl : String) :
    ∀ db : List FaceRow, List.Forall₂ same_except_cluster db (apply_one db m lbl) := by
  induction m with
  | nil => intro db; exact forall₂_sec_refl db
  | cons kv rest ih =>
      intro db
      unfold apply_one at *
      rw [List.foldl_cons]
      exact forall₂_sec_trans (forall₂_sec_set_cluster db kv.1 kv.2 lbl) (ih _)

theorem forall₂_sec_apply_labels_aux (minEx : Nat) :
    ∀ (ms : List (List (Int × Int))) (ci : Nat) (db : List FaceRow),
      List.Forall₂ same_except_cluster db (apply_labels_aux minEx ms ci db) := by
  intro ms
  induction ms with
  | nil => intro ci db; exact forall₂_sec_refl db
  | cons m rest ih =>
      intro ci db
      unfold apply_labels_aux
      by_cases hm : minEx ≤ m.length
      · simp only [hm, if_true]
        exact forall₂_sec_trans (forall₂_sec_apply_one m (label_of ci) db) (ih _ _)
      · simp only [hm, if_false]
        exact ih _ _

/-- Claim C10 (confirmed).  A clustering pass writes only the `cluster_id`
column: whenever `_cluster_embeddings` completes, the output table has the
same rows in the same order with identical bounding box, embedding,
`assigned_person_id`, `source` and `confidence` — so re-clustering never
disturbs human person assignments. -/
theorem C10_cluster_pass_frame (db : List FaceRow) (thr : ℝ) (minEx : Nat)
    (db' : List FaceRow) (n : Nat)
    (h : cluster_embeddings db thr minEx = .ok (db', n)) :
    List.Forall₂ same_except_cluster db db' := by
  unfold cluster_embeddings at h
  dsimp only at h
  split at h
  · rw [Except.ok.injEq, Prod.mk.injEq] at h
    rw [← h.1]
    exact forall₂_sec_refl db
  · split at h
    · rw [Except.ok.injEq, Prod.mk.injEq] at h
      rw [← h.1]
      exact forall₂_sec_refl db
    · split at h
      · exact absurd h (by simp)
      · rw [Except.ok.injEq, Prod.mk.injEq] at h
        rw [← h.1]
        exact forall₂_sec_apply_labels_aux minEx _ 0 db

/-- Witness for C10: a pass over a table whose single row has no stored
embedding succeeds and leaves every non-`cluster_id` column unchanged. -/
theorem C10_cluster_pass_frame_witness :
    List.Forall₂ same_except_cluster
      [⟨1, 0, 0, 0, 0, 0, none, none, some 7, "detector", 1⟩]
      [⟨1, 0, 0, 0, 0, 0, none, none, some 7, "detector", 1⟩] :=
  C10_cluster_pass_frame
    [⟨1, 0, 0, 0, 0, 0, none, none, some 7, "detector", 1⟩] (17/25) 2
    [⟨1, 0, 0, 0, 0, 0, none, none, some 7, "detector", 1⟩] 0 rfl

/-- Claim C8 (counterexample).  Malformed dimensionality is fatal, not
skipped: with a 2-dimensional and a 3-dimensional stored embedding, the
second `np.dot` against the first centroid has misaligned shapes, and the
whole clustering pass aborts with an error instead of skipping the item. -/
theorem C8_dim_mismatch_counterexample :
    cluster_embeddings
        [⟨1, 0, 0, 0, 0, 0, some [1, 0], none, none, "insightface", 1⟩,
         ⟨2, 0, 0, 0, 0, 0, some [1, 0, 0], none, none, "insightface", 1⟩]
        (17/25) 2
      = .error "shapes not aligned" := rfl


theorem dotRaw_replicate_zero (c : List ℝ) :
    dotRaw (List.replicate c.length 0) c = 0 := by
  induction c with
  | nil => rfl
  | cons x xs ih =>
      unfold dotRaw at *
      rw [List.length_cons, List.replicate_succ, List.zipWith_cons_cons,
        List.sum_cons, ih, zero_mul, zero_add]

theorem dot_list_zeros (d : Nat) :
    ∀ cs : List (List ℝ), (∀ c ∈ cs, c.length = d) →
      dot_list (List.replicate d 0) cs = .ok (List.replicate cs.length 0) := by
  intro cs
  induction cs with
  | nil => intro _; rfl
  | cons c cs' ih =>
      intro h
      have hc : c.length = d := h c (List.mem_cons_self c cs')
      have hd : dotE (List.replicate d 0) c = .ok 0 := by
        unfold dotE
        rw [if_pos (by rw [List.length_replicate, hc])]
        rw [← hc, dotRaw_replicate_zero]
      unfold dot_list
      rw [hd, ih (fun c' hc' => h c' (List.mem_cons_of_mem c hc'))]
      rw [List.length_cons, List.replicate_succ]

theorem argmax_aux_zeros : ∀ (n i bi : Nat),
    argmax_aux (List.replicate n 0) i bi 0 = (bi, 0) := by
  intro n
  induction n with
  | zero => intro i bi; rfl
  | succ m ih =>
      intro i bi
      rw [List.replicate_succ]
      unfold argmax_aux
      rw [if_neg (lt_irrefl (0 : ℝ))]
      exact ih _ _

theorem argmax_list_zeros (n : Nat) :
    argmax_list (List.replicate (n + 1) 0) = (0, 0) := by
  rw [List.replicate_succ]
  unfold argmax_list
  exact argmax_aux_zeros n 1 0

theorem l2_normalize_zero_vec (d : Nat) :
    l2_normalize (List.replicate d (0 : ℝ)) = List.replicate d 0 := by
  have hs : sumSq (List.replicate d (0 : ℝ)) = 0 := by
    unfold sumSq
    rw [List.map_replicate, mul_zero, List.sum_replicate, smul_zero]
  unfold l2_normalize l2norm
  rw [hs, Real.sqrt_zero, List.map_replicate, zero_div]

/-- Unfolding `step_item` when there is no centroid yet. -/
theorem step_item_none (thr : ℝ) (st : ClusterState) (pid fid : Int)
    (emb : List ℝ) (h : best_cluster emb st.centroids = .ok none) :
    step_item thr st pid fid emb
      = .ok ⟨st.centroids ++ [emb], st.members ++ [[(pid, fid)]]⟩ := by
  unfold step_item
  rw [h]

/-- Unfolding `step_item` once `best_cluster` is evaluated. -/
theorem step_item_some (thr : ℝ) (st : ClusterState) (pid fid : Int)
    (emb : List ℝ) (idx : Nat) (sim : ℝ)
    (h : best_cluster emb st.centroids = .ok (some (idx, sim))) :
    step_item thr st pid fid emb
      = if thr ≤ sim then
          .ok ⟨st.centroids.set idx
                (update_centroid (st.centroids.getD idx [])
                  ((st.members.getD idx []) ++ [(pid, fid)]).length emb),
              st.members.set idx ((st.members.getD idx []) ++ [(pid, fid)])⟩
        else .ok ⟨st.centroids ++ [emb], st.members ++ [[(pid, fid)]]⟩ := by
  unfold step_item
  rw [h]

/-- Unfolding one step of `run_cluster`. -/
theorem run_cluster_cons (thr : ℝ) (pid fid : Int) (e : List ℝ)
    (rest : List (Int × Int × List ℝ)) (st st' : ClusterState)
    (h : step_item thr st pid fid e = .ok st') :
    run_cluster thr ((pid, fid, e) :: rest) st = run_cluster thr rest st' := by
  conv_lhs => rw [run_cluster]
  rw [h]

/-- `best_cluster` on a nonempty centroid list. -/
theorem best_cluster_cons (e c0 : List ℝ) (cs : List (List ℝ)) :
    best_cluster e (c0 :: cs)
      = match dot_list e (c0 :: cs) with
        | .error m => .error m
        | .ok sims => .ok (some (argmax_list sims)) := rfl

/-- Claim C8 (amended).  What the pass actually tolerates: (1) a pass in
which no row yields an eligible item — every stored embedding is NULL or
zero-size — returns zero clusters without error and leaves the table
unchanged; (2) an all-zero (zero-norm) embedding is *processed*, not
skipped: its similarity to every centroid is 0, below any positive
threshold, so it never joins an existing cluster but always founds a new
one; (3) zero-norm embeddings pass through `_l2_normalize` as zero vectors
(the `1e-9` guard avoids division by zero).  Mismatched dimensionality, by
contrast, aborts the pass (see the counterexample). -/
theorem C8_amended_failure_semantics :
    (∀ (db : List FaceRow) (thr : ℝ) (minEx : Nat),
      (∀ r ∈ db, r.embedding = none ∨ r.embedding = some ([] : List ℝ)) →
      cluster_embeddings db thr minEx = .ok (db, 0))
    ∧ (∀ (thr : ℝ) (st : ClusterState) (pid fid : Int) (d : Nat),
      0 < thr → (∀ c ∈ st.centroids, c.length = d) →
      step_item thr st pid fid (List.replicate d 0)
        = .ok ⟨st.centroids ++ [List.replicate d 0], st.members ++ [[(pid, fid)]]⟩)
    ∧ (∀ d : Nat, l2_normalize (List.replicate d (0 : ℝ)) = List.replicate d 0) := by
  refine ⟨?_, ?_, l2_normalize_zero_vec⟩
  · intro db thr minEx h
    unfold cluster_embeddings
    dsimp only
    by_cases hfil : (db.filter (fun r => r.embedding.isSome)).isEmpty
    · rw [if_pos hfil]
    · rw [if_neg hfil]
      have hli : (load_items (db.filter (fun r => r.embedding.isSome))).isEmpty = true := by
        rw [List.isEmpty_iff]
        unfold load_items
        rw [List.filterMap_eq_nil_iff]
        intro r hr
        have hdb := (List.mem_filter.1 hr).1
        have hsome := (List.mem_filter.1 hr).2
        rcases h r hdb with hnone | hempty
        · rw [hnone] at hsome
          simp at hsome
        · simp [hempty]
      rw [if_pos hli]
  · intro thr st pid fid d hthr hlen
    by_cases hempty : st.centroids = []
    · rw [step_item_none thr st pid fid _ (by rw [hempty]; rfl)]
    · obtain ⟨c0, cs', hc⟩ := List.exists_cons_of_ne_nil hempty
      have hall : ∀ c ∈ c0 :: cs', c.length = d := by
        intro c hcc
        exact hlen c (by rw [hc]; exact hcc)
      have hbc : best_cluster (List.replicate d 0) st.centroids = .ok (some (0, 0)) := by
        rw [hc, best_cluster_cons, dot_list_zeros d _ hall, List.length_cons]
        show Except.ok (some (argmax_list (List.replicate (cs'.length + 1) 0)))
          = Except.ok (some (0, 0))
        rw [argmax_list_zeros]
      rw [step_item_some thr st pid fid _ 0 0 hbc, if_neg (not_le.2 hthr)]

/-- Witness for C8 (amended): a table whose only embedding blob is
zero-size passes with zero clusters; at threshold `0.68` a 2-dimensional
zero embedding founds a fresh cluster from the empty state; normalizing
the 2-dimensional zero vector returns it unchanged. -/
theorem C8_amended_failure_semantics_witness :
    cluster_embeddings [⟨1, 0, 0, 0, 0, 0, some [], none, none, "insightface", 1⟩]
        (17/25) 2
      = .ok ([⟨1, 0, 0, 0, 0, 0, some [], none, none, "insightface", 1⟩], 0)
    ∧ step_item (17/25) ⟨[], []⟩ 1 0 (List.replicate 2 0)
        = .ok ⟨[] ++ [List.replicate 2 0], [] ++ [[(1, 0)]]⟩
    ∧ l2_normalize (List.replicate 2 (0 : ℝ)) = List.replicate 2 0 :=
  ⟨C8_amended_failure_semantics.1 _ (17/25) 2 (by
      intro r hr
      rw [List.mem_singleton] at hr
      rw [hr]
      right
      rfl),
   C8_amended_failure_semantics.2.1 (17/25) ⟨[], []⟩ 1 0 2 (by norm_num) (by
      intro c hc
      simp at hc),
   C8_amended_failure_semantics.2.2 2⟩

/-- The `cluster_id` of the (first) `face_boxes` row keyed `(pid, fid)`:
`none` when no such row exists, otherwise the column value (NULL as
`some none`). -/
def face_cluster (db : List FaceRow) (pid fid : Int) : Option (Option String) :=
  (db.find? (fun r => r.photo_id == pid && r.face_id == fid)).map
    (fun r => r.cluster_id)

theorem face_cluster_set_same (db : List FaceRow) (p f : Int) (lbl : String) :
    face_cluster (set_cluster db p f lbl) p f
      = (face_cluster db p f).map (fun _ => some lbl) := by
  induction db with
  | nil => rfl
  | cons r rest ih =>
      by_cases hm : (r.photo_id == p && r.face_id == f) = true
      · unfold face_cluster set_cluster at *
        rw [List.map_cons, if_pos hm]
        rw [@List.find?_cons_of_pos FaceRow (fun r => r.photo_id == p && r.face_id == f)
            { r with cluster_id := some lbl } _ hm,
          @List.find?_cons_of_pos FaceRow (fun r => r.photo_id == p && r.face_id == f)
            r rest hm]
        rfl
      · unfold face_cluster set_cluster at *
        rw [List.map_cons, if_neg hm]
        rw [@List.find?_cons_of_neg FaceRow (fun r => r.photo_id == p && r.face_id == f)
            r _ hm,
          @List.find?_cons_of_neg FaceRow (fun r => r.photo_id == p && r.face_id == f)
            r rest hm]
        exact ih

theorem face_cluster_set_other (db : List FaceRow) (p f p' f' : Int)
    (lbl : String) (hne : ¬(p' = p ∧ f' = f)) :
    face_cluster (set_cluster db p f lbl) p' f' = face_cluster db p' f' := by
  induction db with
  | nil => rfl
  | cons r rest ih =>
      by_cases hq : (r.photo_id == p' && r.face_id == f') = true
      · rw [Bool.and_eq_true, beq_iff_eq, beq_iff_eq] at hq
        have hm : ¬ (r.photo_id == p && r.face_id == f) = true := by
          intro hmt
          rw [Bool.and_eq_true, beq_iff_eq, beq_iff_eq] at hmt
          exact hne ⟨by rw [← hq.1, hmt.1], by rw [← hq.2, hmt.2]⟩
        have hqb : (r.photo_id == p' && r.face_id == f') = true := by
          rw [Bool.and_eq_true, beq_iff_eq, beq_iff_eq]
          exact hq
        unfold face_cluster set_cluster at *
        rw [List.map_cons, if_neg hm]
        rw [@List.find?_cons_of_pos FaceRow (fun r => r.photo_id == p' && r.face_id == f')
            r _ hqb,
          @List.find?_cons_of_pos FaceRow (fun r => r.photo_id == p' && r.face_id == f')
            r rest hqb]
      · by_cases hm : (r.photo_id == p && r.face_id == f) = true
        · unfold face_cluster set_cluster at *
          rw [List.map_cons, if_pos hm]
          rw [@List.find?_cons_of_neg FaceRow (fun r => r.photo_id == p' && r.face_id == f')
              { r with cluster_id := some lbl } _ hq,
            @List.find?_cons_of_neg FaceRow (fun r => r.photo_id == p' && r.face_id == f')
              r rest hq]
          exact ih
        · unfold face_cluster set_cluster at *
          rw [List.map_cons, if_neg hm]
          rw [@List.find?_cons_of_neg FaceRow (fun r => r.photo_id == p' && r.face_id == f')
              r _ hq,
            @List.find?_cons_of_neg FaceRow (fun r => r.photo_id == p' && r.face_id == f')
              r rest hq]
          exact ih

theorem face_cluster_apply_one_not_mem (lbl : String) (p f : Int) :
    ∀ (m : List (Int × Int)) (db : List FaceRow), (p, f) ∉ m →
      face_cluster (apply_one db m lbl) p f = face_cluster db p f := by
  intro m
  induction m with
  | nil => intro db _; rfl
  | cons kv rest ih =>
      intro db hm
      unfold apply_one at *
      rw [List.foldl_cons]
      rw [ih _ (fun hx => hm (List.mem_cons_of_mem kv hx))]
      apply face_cluster_set_other
      intro ⟨hp, hf⟩
      exact hm (by
        rw [List.mem_cons]
        left
        rw [Prod.ext_iff]
        exact ⟨hp, hf⟩)

theorem face_cluster_apply_one_mem (lbl : String) (p f : Int) :
    ∀ (m : List (Int × Int)) (db : List FaceRow), (p, f) ∈ m →
      face_cluster (apply_one db m lbl) p f
        = (face_cluster db p f).map (fun _ => some lbl) := by
  intro m
  induction m with
  | nil => intro db hm; exact absurd hm (List.not_mem_nil _)
  | cons kv rest ih =>
      intro db hm
      unfold apply_one at *
      rw [List.foldl_cons]
      by_cases hkv : kv = (p, f)
      · subst hkv
        by_cases hrest : (p, f) ∈ rest
        · rw [ih _ hrest, face_cluster_set_same, Option.map_map]
          rfl
        · have := face_cluster_apply_one_not_mem lbl p f rest
            (set_cluster db (p, f).1 (p, f).2 lbl) hrest
          unfold apply_one at this
          rw [this, face_cluster_set_same]
      · have hrest : (p, f) ∈ rest := by
          rcases List.mem_cons.1 hm with h1 | h2
          · exact absurd h1.symm hkv
          · exact h2
        rw [ih _ hrest]
        rw [face_cluster_set_other]
        intro ⟨hp, hf⟩
        exact hkv (by
          rw [Prod.ext_iff]
          exact ⟨hp.symm, hf.symm⟩)

theorem apply_labels_aux_misses (minEx : Nat) (p f : Int) :
    ∀ (ms : List (List (Int × Int))) (ci : Nat) (db : List FaceRow),
      (∀ (cj : Nat) (m' : List (Int × Int)),
        ms.get? cj = some m' → minEx ≤ m'.length → (p, f) ∉ m') →
      face_cluster (apply_labels_aux minEx ms ci db) p f = face_cluster db p f := by
  intro ms
  induction ms with
  | nil => intro ci db _; rfl
  | cons m0 ms' ih =>
      intro ci db h
      unfold apply_labels_aux
      have hshift : ∀ (cj : Nat) (m' : List (Int × Int)),
          ms'.get? cj = some m' → minEx ≤ m'.length → (p, f) ∉ m' := by
        intro cj m' hg hl
        exact h (cj + 1) m' (by rw [List.get?_cons_succ]; exact hg) hl
      by_cases hm0 : minEx ≤ m0.length
      · rw [if_pos hm0, ih (ci + 1) _ hshift,
          face_cluster_apply_one_not_mem _ _ _ _ _ (h 0 m0 rfl hm0)]
      · rw [if_neg hm0]
        exact ih (ci + 1) _ hshift

theorem apply_labels_aux_hits (minEx : Nat) (p f : Int) :
    ∀ (ms : List (List (Int × Int))) (j ci : Nat) (db : List FaceRow)
      (m : List (Int × Int)),
      ms.get? j = some m → minEx ≤ m.length → (p, f) ∈ m →
      (∀ (cj : Nat) (m' : List (Int × Int)),
        ms.get? cj = some m' → cj ≠ j → (p, f) ∉ m') →
      face_cluster (apply_labels_aux minEx ms ci db) p f
        = (face_cluster db p f).map (fun _ => some (label_of (ci + j))) := by
  intro ms
  induction ms with
  | nil =>
      intro j ci db m hget _ _ _
      rw [List.get?_nil] at hget
      exact absurd hget (by simp)
  | cons m0 ms' ih =>
      intro j ci db m hget hlen hmem hothers
      cases j with
      | zero =>
          rw [List.get?_cons_zero, Option.some.injEq] at hget
          subst hget
          unfold apply_labels_aux
          rw [if_pos hlen]
          rw [apply_labels_aux_misses minEx p f ms' (ci + 1) _ (by
            intro cj m' hg _
            exact hothers (cj + 1) m' (by rw [List.get?_cons_succ]; exact hg)
              (Nat.succ_ne_zero cj))]
          rw [face_cluster_apply_one_mem _ _ _ _ _ hmem, Nat.add_zero]
      | succ k =>
          rw [List.get?_cons_succ] at hget
          have hnot0 : (p, f) ∉ m0 :=
            hothers 0 m0 rfl (fun hx => Nat.succ_ne_zero k hx.symm)
          have hshift : ∀ (cj : Nat) (m' : List (Int × Int)),
              ms'.get? cj = some m' → cj ≠ k → (p, f) ∉ m' := by
            intro cj m' hg hne
            exact hothers (cj + 1) m' (by rw [List.get?_cons_succ]; exact hg)
              (fun hx => hne (Nat.succ_injective hx))
          have harith : ci + 1 + k = ci + (k + 1) := by omega
          unfold apply_labels_aux
          by_cases hm0 : minEx ≤ m0.length
          · rw [if_pos hm0, ih k (ci + 1) _ m hget hlen hmem hshift,
              face_cluster_apply_one_not_mem _ _ _ _ _ hnot0, harith]
          · rw [if_neg hm0, ih k (ci + 1) _ m hget hlen hmem hshift, harith]

/-- Claim C7 (amended).  What the write phase of a clustering pass
guarantees: (a) every detection belonging to a cluster of at least
`min_examples` members (and to no other cluster) receives that cluster's
same non-null label `C<index>`; (b) a detection belonging to no
sufficiently large cluster keeps its *previous* `cluster_id` — the pass
skips small clusters instead of writing NULL, so its rows are null only
if they were already null (e.g. freshly re-indexed), and the pass does
not recompute `cluster_id` for such rows. -/
theorem C7_amended_min_cluster_labels :
    (∀ (ms : List (List (Int × Int))) (minEx : Nat) (db : List FaceRow)
        (ci : Nat) (m : List (Int × Int)) (p f : Int),
      ms.get? ci = some m → minEx ≤ m.length → (p, f) ∈ m →
      (∀ (cj : Nat) (m' : List (Int × Int)),
        ms.get? cj = some m' → cj ≠ ci → (p, f) ∉ m') →
      face_cluster (apply_labels ms minEx db) p f
        = (face_cluster db p f).map (fun _ => some (label_of ci)))
    ∧ (∀ (ms : List (List (Int × Int))) (minEx : Nat) (db : List FaceRow)
        (p f : Int),
      (∀ (cj : Nat) (m' : List (Int × Int)),
        ms.get? cj = some m' → minEx ≤ m'.length → (p, f) ∉ m') →
      face_cluster (apply_labels ms minEx db) p f = face_cluster db p f) := by
  constructor
  · intro ms minEx db ci m p f hget hlen hmem hothers
    unfold apply_labels
    rw [apply_labels_aux_hits minEx p f ms ci 0 db m hget hlen hmem hothers,
      Nat.zero_add]
  · intro ms minEx db p f h
    exact apply_labels_aux_misses minEx p f ms 0 db h

/-- Claim C7 (counterexample).  A pass over a table whose single face
carries a stale label from an earlier pass: the face ends up in a
singleton cluster (below `min_examples = 2`), yet after the pass its
`cluster_id` is still `"C00000"`, not NULL — small clusters are skipped,
not nulled, so `cluster_id` is not recomputed for the entire set. -/
theorem C7_stale_label_counterexample :
    cluster_embeddings
        [⟨1, 0, 0, 0, 0, 0, some [1, 0], some "C00000", none, "insightface", 1⟩]
        (17/25) 2
      = .ok ([⟨1, 0, 0, 0, 0, 0, some [1, 0], some "C00000", none, "insightface", 1⟩], 0)
    ∧ face_cluster
        [⟨1, 0, 0, 0, 0, 0, some [1, 0], some "C00000", none, "insightface", 1⟩] 1 0
      = some (some "C00000") :=
  ⟨rfl, rfl⟩

/-- Witness for C7 (amended): in a two-member cluster at index 0 both
faces get label `"C00000"`; a face in no sufficiently large cluster keeps
its previous (here stale) `cluster_id`. -/
theorem C7_amended_min_cluster_labels_witness :
    face_cluster (apply_labels [[(1, 0), (2, 0)]] 2
        [⟨1, 0, 0, 0, 0, 0, none, none, none, "detector", 0⟩,
         ⟨2, 0, 0, 0, 0, 0, none, none, none, "detector", 0⟩]) 1 0
      = (face_cluster
          [⟨1, 0, 0, 0, 0, 0, none, none, none, "detector", 0⟩,
           ⟨2, 0, 0, 0, 0, 0, none, none, none, "detector", 0⟩] 1 0).map
          (fun _ => some (label_of 0))
    ∧ face_cluster (apply_labels [[(9, 9), (8, 8)]] 2
        [⟨1, 0, 0, 0, 0, 0, none, some "C00000", none, "detector", 0⟩]) 1 0
      = face_cluster
          [⟨1, 0, 0, 0, 0, 0, none, some "C00000", none, "detector", 0⟩] 1 0 :=
  ⟨C7_amended_min_cluster_labels.1 [[(1, 0), (2, 0)]] 2 _ 0 [(1, 0), (2, 0)] 1 0
      rfl (by decide) (by decide)
      (by
        intro cj m' hg hne
        cases cj with
        | zero => exact absurd rfl hne
        | succ k => simp at hg),
   C7_amended_min_cluster_labels.2 [[(9, 9), (8, 8)]] 2 _ 1 0
      (by
        intro cj m' hg _
        cases cj with
        | zero =>
            rw [List.get?_cons_zero, Option.some.injEq] at hg
            rw [← hg]
            decide
        | succ k => simp at hg)⟩

/-! ## Concrete embeddings for the clusterer's order/centroid claims

Unit-norm 2-dimensional stored embeddings built from Pythagorean triples,
so that every norm the pass computes is rational and exact. -/

noncomputable def embA : List ℝ := [12/13, -5/13]

noncomputable def embB : List ℝ := [3/5, 4/5]

noncomputable def embC : List ℝ := [12/13, 5/13]

noncomputable def embD : List ℝ := [4/5, 3/5]

/-- `embA` after load-time `_l2_normalize` (division by `1 + 1e-9`). -/
noncomputable def nA : List ℝ := [12000000000/13000000013, -(5000000000/13000000013)]

noncomputable def nB : List ℝ := [3000000000/5000000005, 4000000000/5000000005]

noncomputable def nC : List ℝ := [12000000000/13000000013, 5000000000/13000000013]

noncomputable def nD : List ℝ := [4000000000/5000000005, 3000000000/5000000005]

theorem l2_normalize_embA : l2_normalize embA = nA := by
  have hs : sumSq embA = 1 := by
    unfold sumSq embA
    norm_num
  unfold l2_normalize l2norm
  rw [hs, Real.sqrt_one]
  unfold embA nA eps
  norm_num

theorem l2_normalize_embB : l2_normalize embB = nB := by
  have hs : sumSq embB = 1 := by
    unfold sumSq embB
    norm_num
  unfold l2_normalize l2norm
  rw [hs, Real.sqrt_one]
  unfold embB nB eps
  norm_num

theorem l2_normalize_embC : l2_normalize embC = nC := by
  have hs : sumSq embC = 1 := by
    unfold sumSq embC
    norm_num
  unfold l2_normalize l2norm
  rw [hs, Real.sqrt_one]
  unfold embC nC eps
  norm_num

theorem l2_normalize_embD : l2_normalize embD = nD := by
  have hs : sumSq embD = 1 := by
    unfold sumSq embD
    norm_num
  unfold l2_normalize l2norm
  rw [hs, Real.sqrt_one]
  unfold embD nD eps
  norm_num

/-- The centroid after `nA` joins the cluster founded by `nC`:
`normalize((nC·1 + nA)/2) = normalize([12000000000/13000000013, 0])`. -/
noncomputable def cCA : List ℝ := [12000000000000000000/12000000013000000013, 0]

theorem update_centroid_CA : update_centroid nC 2 nA = cCA := by
  have hv : vdiv (vadd (vsmul (((2 : Nat) : ℝ) - 1) nC) nA) ((2 : Nat) : ℝ)
      = [(12000000000 : ℝ)/13000000013, 0] := by
    unfold vdiv vadd vsmul nC nA
    norm_num
  unfold update_centroid
  rw [hv]
  have hs : sumSq [(12000000000 : ℝ)/13000000013, 0]
      = ((12000000000 : ℝ)/13000000013)^2 := by
    unfold sumSq
    norm_num
  unfold l2_normalize l2norm
  rw [hs, Real.sqrt_sq (by norm_num)]
  unfold cCA eps
  norm_num

theorem sim_AC_joins : (17/25 : ℝ) ≤ dotRaw nA nC := by
  norm_num [dotRaw, nA, nC]

theorem sim_DcCA_joins : (17/25 : ℝ) ≤ dotRaw nD cCA := by
  norm_num [dotRaw, nD, cCA]

theorem sim_BcCA_splits : ¬ ((17/25 : ℝ) ≤ dotRaw nB cCA) := by
  norm_num [dotRaw, nB, cCA]

theorem sim_BA_splits : ¬ ((17/25 : ℝ) ≤ dotRaw nB nA) := by
  norm_num [dotRaw, nB, nA]

theorem sim_CA_lt_CB : dotRaw nC nA < dotRaw nC nB := by
  norm_num [dotRaw, nA, nB, nC]

theorem sim_CB_joins : (17/25 : ℝ) ≤ dotRaw nC nB := by
  norm_num [dotRaw, nB, nC]

/-- Stored face tables for the centroid and ordering counterexamples. -/
noncomputable def dbC5 : List FaceRow :=
  [⟨1, 0, 0, 0, 0, 0, some embC, none, none, "insightface", 1⟩,
   ⟨2, 0, 0, 0, 0, 0, some embA, none, none, "insightface", 1⟩,
   ⟨3, 0, 0, 0, 0, 0, some embD, none, none, "insightface", 1⟩]

/-- A table whose stored (rowid) order is photo 3, then 1, then 2 — e.g.
after photo 3 was re-indexed first. -/
noncomputable def dbC6 : List FaceRow :=
  [⟨3, 0, 0, 0, 0, 0, some embC, none, none, "insightface", 1⟩,
   ⟨1, 0, 0, 0, 0, 0, some embA, none, none, "insightface", 1⟩,
   ⟨2, 0, 0, 0, 0, 0, some embB, none, none, "insightface", 1⟩]

/-- `dbC6` in the spec's ascending `(photo_id, face_id)` order. -/
noncomputable def dbC6sorted : List FaceRow :=
  [⟨1, 0, 0, 0, 0, 0, some embA, none, none, "insightface", 1⟩,
   ⟨2, 0, 0, 0, 0, 0, some embB, none, none, "insightface", 1⟩,
   ⟨3, 0, 0, 0, 0, 0, some embC, none, none, "insightface", 1⟩]

theorem spec_sorted_read_dbC6 : spec_sorted_read dbC6 = dbC6sorted := rfl

theorem load_items_dbC5 :
    load_items (dbC5.filter (fun r => r.embedding.isSome))
      = [(1, 0, nC), (2, 0, nA), (3, 0, nD)] := by
  rw [show load_items (dbC5.filter (fun r => r.embedding.isSome))
      = [(1, 0, l2_normalize embC), (2, 0, l2_normalize embA),
         (3, 0, l2_normalize embD)] from rfl,
    l2_normalize_embC, l2_normalize_embA, l2_normalize_embD]

theorem load_items_dbC6 :
    load_items (dbC6.filter (fun r => r.embedding.isSome))
      = [(3, 0, nC), (1, 0, nA), (2, 0, nB)] := by
  rw [show load_items (dbC6.filter (fun r => r.embedding.isSome))
      = [(3, 0, l2_normalize embC), (1, 0, l2_normalize embA),
         (2, 0, l2_normalize embB)] from rfl,
    l2_normalize_embC, l2_normalize_embA, l2_normalize_embB]

theorem load_items_dbC6sorted :
    load_items (dbC6sorted.filter (fun r => r.embedding.isSome))
      = [(1, 0, nA), (2, 0, nB), (3, 0, nC)] := by
  rw [show load_items (dbC6sorted.filter (fun r => r.embedding.isSome))
      = [(1, 0, l2_normalize embA), (2, 0, l2_normalize embB),
         (3, 0, l2_normalize embC)] from rfl,
    l2_normalize_embA, l2_normalize_embB, l2_normalize_embC]

theorem c5_run :
    run_cluster (17/25) [(1, 0, nC), (2, 0, nA), (3, 0, nD)] ⟨[], []⟩
      = .ok ⟨[update_centroid cCA 3 nD], [[(1, 0), (2, 0), (3, 0)]]⟩ := by
  have s1 : step_item (17/25) ⟨[], []⟩ 1 0 nC = .ok ⟨[nC], [[(1, 0)]]⟩ := by
    rw [step_item_none (17/25) ⟨[], []⟩ 1 0 nC rfl]
    rfl
  have s2 : step_item (17/25) ⟨[nC], [[(1, 0)]]⟩ 2 0 nA
      = .ok ⟨[cCA], [[(1, 0), (2, 0)]]⟩ := by
    rw [step_item_some (17/25) ⟨[nC], [[(1, 0)]]⟩ 2 0 nA 0 (dotRaw nA nC) rfl,
      if_pos sim_AC_joins]
    show Except.ok (ClusterState.mk [update_centroid nC 2 nA] [[(1, 0), (2, 0)]]) = _
    rw [update_centroid_CA]
  have s3 : step_item (17/25) ⟨[cCA], [[(1, 0), (2, 0)]]⟩ 3 0 nD
      = .ok ⟨[update_centroid cCA 3 nD], [[(1, 0), (2, 0), (3, 0)]]⟩ := by
    rw [step_item_some (17/25) ⟨[cCA], [[(1, 0), (2, 0)]]⟩ 3 0 nD 0 (dotRaw nD cCA) rfl,
      if_pos sim_DcCA_joins]
    rfl
  rw [run_cluster_cons _ _ _ _ _ _ _ s1, run_cluster_cons _ _ _ _ _ _ _ s2,
    run_cluster_cons _ _ _ _ _ _ _ s3]
  rfl

theorem c6_run_stored :
    run_cluster (17/25) [(3, 0, nC), (1, 0, nA), (2, 0, nB)] ⟨[], []⟩
      = .ok ⟨[cCA, nB], [[(3, 0), (1, 0)], [(2, 0)]]⟩ := by
  have s1 : step_item (17/25) ⟨[], []⟩ 3 0 nC = .ok ⟨[nC], [[(3, 0)]]⟩ := by
    rw [step_item_none (17/25) ⟨[], []⟩ 3 0 nC rfl]
    rfl
  have s2 : step_item (17/25) ⟨[nC], [[(3, 0)]]⟩ 1 0 nA
      = .ok ⟨[cCA], [[(3, 0), (1, 0)]]⟩ := by
    rw [step_item_some (17/25) ⟨[nC], [[(3, 0)]]⟩ 1 0 nA 0 (dotRaw nA nC) rfl,
      if_pos sim_AC_joins]
    show Except.ok (ClusterState.mk [update_centroid nC 2 nA] [[(3, 0), (1, 0)]]) = _
    rw [update_centroid_CA]
  have s3 : step_item (17/25) ⟨[cCA], [[(3, 0), (1, 0)]]⟩ 2 0 nB
      = .ok ⟨[cCA, nB], [[(3, 0), (1, 0)], [(2, 0)]]⟩ := by
    rw [step_item_some (17/25) ⟨[cCA], [[(3, 0), (1, 0)]]⟩ 2 0 nB 0 (dotRaw nB cCA) rfl,
      if_neg sim_BcCA_splits]
    rfl
  rw [run_cluster_cons _ _ _ _ _ _ _ s1, run_cluster_cons _ _ _ _ _ _ _ s2,
    run_cluster_cons _ _ _ _ _ _ _ s3]
  rfl

theorem c6_run_sorted :
    run_cluster (17/25) [(1, 0, nA), (2, 0, nB), (3, 0, nC)] ⟨[], []⟩
      = .ok ⟨[nA, update_centroid nB 2 nC], [[(1, 0)], [(2, 0), (3, 0)]]⟩ := by
  have s1 : step_item (17/25) ⟨[], []⟩ 1 0 nA = .ok ⟨[nA], [[(1, 0)]]⟩ := by
    rw [step_item_none (17/25) ⟨[], []⟩ 1 0 nA rfl]
    rfl
  have s2 : step_item (17/25) ⟨[nA], [[(1, 0)]]⟩ 2 0 nB
      = .ok ⟨[nA, nB], [[(1, 0)], [(2, 0)]]⟩ := by
    rw [step_item_some (17/25) ⟨[nA], [[(1, 0)]]⟩ 2 0 nB 0 (dotRaw nB nA) rfl,
      if_neg sim_BA_splits]
    rfl
  have hax : argmax_list [dotRaw nC nA, dotRaw nC nB] = (1, dotRaw nC nB) := by
    rw [show argmax_list [dotRaw nC nA, dotRaw nC nB]
        = if dotRaw nC nA < dotRaw nC nB then argmax_aux [] 2 1 (dotRaw nC nB)
          else argmax_aux [] 2 0 (dotRaw nC nA) from rfl,
      if_pos sim_CA_lt_CB]
    rfl
  have hbc : best_cluster nC [nA, nB] = .ok (some (1, dotRaw nC nB)) := by
    rw [show best_cluster nC [nA, nB]
        = .ok (some (argmax_list [dotRaw nC nA, dotRaw nC nB])) from rfl, hax]
  have s3 : step_item (17/25) ⟨[nA, nB], [[(1, 0)], [(2, 0)]]⟩ 3 0 nC
      = .ok ⟨[nA, update_centroid nB 2 nC], [[(1, 0)], [(2, 0), (3, 0)]]⟩ := by
    rw [step_item_some (17/25) ⟨[nA, nB], [[(1, 0)], [(2, 0)]]⟩ 3 0 nC 1
        (dotRaw nC nB) hbc,
      if_pos sim_CB_joins]
    rfl
  rw [run_cluster_cons _ _ _ _ _ _ _ s1, run_cluster_cons _ _ _ _ _ _ _ s2,
    run_cluster_cons _ _ _ _ _ _ _ s3]
  rfl

theorem c6_pass_stored :
    cluster_embeddings dbC6 (17/25) 2
      = .ok (apply_labels [[(3, 0), (1, 0)], [(2, 0)]] 2 dbC6, 1) := by
  unfold cluster_embeddings
  dsimp only
  rw [if_neg (by decide), if_neg (by
    rw [load_items_dbC6]
    decide)]
  rw [load_items_dbC6, c6_run_stored]
  rfl

theorem c6_pass_sorted :
    cluster_embeddings dbC6sorted (17/25) 2
      = .ok (apply_labels [[(1, 0)], [(2, 0), (3, 0)]] 2 dbC6sorted, 1) := by
  unfold cluster_embeddings
  dsimp only
  rw [if_neg (by decide), if_neg (by
    rw [load_items_dbC6sorted]
    decide)]
  rw [load_items_dbC6sorted, c6_run_sorted]
  rfl

/-- Two-component vectors with equal second component and different first
components normalize to different vectors (their directions differ). -/
theorem l2_normalize_pair_ne (a b s : ℝ) (hs : s ≠ 0) (hab : a ≠ b) :
    l2_normalize [a, s] ≠ l2_normalize [b, s] := by
  intro h
  unfold l2_normalize at h
  simp only [List.map_cons, List.map_nil, List.cons.injEq, and_true] at h
  obtain ⟨h1, h2⟩ := h
  have heps : (0 : ℝ) < eps := by
    unfold eps
    norm_num
  have hX : 0 < l2norm [a, s] + eps :=
    add_pos_of_nonneg_of_pos (Real.sqrt_nonneg _) heps
  have hY : 0 < l2norm [b, s] + eps :=
    add_pos_of_nonneg_of_pos (Real.sqrt_nonneg _) heps
  have hXY : l2norm [a, s] + eps = l2norm [b, s] + eps := by
    have hcross := (div_eq_div_iff hX.ne' hY.ne').1 h2
    exact (mul_left_cancel₀ hs hcross).symm
  rw [hXY] at h1
  field_simp at h1
  exact hab h1

/-- Claim C5 (counterexample).  Over the stored table `dbC5` the pass puts
all three faces in one cluster, joining members in the order `nC`, `nA`,
`nD`; after the third join the centroid is *not* the unit-normalized mean
of the three member embeddings — each join re-normalizes the running mean,
so from the third member on the recurrence drifts off the true mean's
direction. -/
theorem C5_centroid_counterexample :
    (run_cluster (17/25) (load_items (dbC5.filter (fun r => r.embedding.isSome)))
        ⟨[], []⟩).map (fun st => st.members) = .ok [[(1, 0), (2, 0), (3, 0)]]
    ∧ (run_cluster (17/25) (load_items (dbC5.filter (fun r => r.embedding.isSome)))
        ⟨[], []⟩).map (fun st => st.centroids)
      ≠ .ok [spec_normalized_mean
          [l2_normalize embC, l2_normalize embA, l2_normalize embD]] := by
  rw [load_items_dbC5, c5_run, l2_normalize_embC, l2_normalize_embA, l2_normalize_embD]
  constructor
  · rfl
  · intro h
    simp only [Except.map, Except.ok.injEq, List.cons.injEq, and_true] at h
    have h1 : update_centroid cCA 3 nD = spec_normalized_mean [nC, nA, nD] := h
    have hv3 : vdiv (vadd (vsmul (((3 : Nat) : ℝ) - 1) cCA) nD) ((3 : Nat) : ℝ)
        = [(2*(12000000000000000000/12000000013000000013)
              + 4000000000/5000000005)/3,
           (3000000000/5000000005)/3] := by
      unfold vdiv vadd vsmul cCA nD
      norm_num
    have hvm : vdiv (vsum [nC, nA, nD]) (([nC, nA, nD] : List (List ℝ)).length : ℝ)
        = [(2*(12000000000/13000000013) + 4000000000/5000000005)/3,
           (3000000000/5000000005)/3] := by
      rw [show vsum [nC, nA, nD] = vadd nC (vadd nA nD) from rfl]
      unfold vdiv vadd nC nA nD
      norm_num
    unfold update_centroid spec_normalized_mean at h1
    rw [hv3, hvm] at h1
    exact l2_normalize_pair_ne _ _ _ (by norm_num) (by norm_num) h1

theorem vadd_comm (a : List ℝ) : ∀ b : List ℝ, vadd a b = vadd b a := by
  induction a with
  | nil => intro b; cases b <;> rfl
  | cons x xs ih =>
      intro b
      cases b with
      | nil => rfl
      | cons y ys =>
          unfold vadd at *
          rw [List.zipWith_cons_cons, List.zipWith_cons_cons, add_comm x y, ih]

theorem vsmul_two_sub_one (e : List ℝ) : vsmul (((2 : Nat) : ℝ) - 1) e = e := by
  unfold vsmul
  rw [show (((2 : Nat) : ℝ) - 1) = 1 by norm_num]
  simp

/-- Claim C5 (amended).  The running-mean update does give the
unit-normalized mean at the *second* member, in either join order:
`normalize((e1·1 + e2)/2)` is the normalized mean of `{e1, e2}` and is
symmetric in the two members.  From the third member on the property
fails (see the counterexample): the update feeds the *re-normalized*
previous centroid, not the true running sum, back into the mean. -/
theorem C5_amended_centroid_two_members (e1 e2 : List ℝ) :
    update_centroid e1 2 e2 = spec_normalized_mean [e1, e2]
    ∧ update_centroid e1 2 e2 = update_centroid e2 2 e1 := by
  constructor
  · unfold update_centroid spec_normalized_mean
    rw [vsmul_two_sub_one]
    rfl
  · unfold update_centroid
    rw [vsmul_two_sub_one, vsmul_two_sub_one, vadd_comm]

/-- Claim C6 (counterexample).  The pass reads `face_boxes` without any
`ORDER BY`, so it processes embeddings in stored (rowid) order, not
ascending `(photo_id, face_id)`.  Over `dbC6` (stored order photo 3, 1, 2)
face `(1,0)` joins photo 3's face and gets label `"C00000"`; over the same
rows read in ascending order it founds a singleton cluster and keeps
`cluster_id = NULL` while faces `(2,0)`/`(3,0)` pair up instead.  The same
embedding set therefore yields different member partitions depending on
the stored order, refuting both the claimed read order and the claimed
order-independence. -/
theorem C6_order_counterexample :
    cluster_of (cluster_embeddings dbC6 (17/25) 2) 1 0 = some (some "C00000")
    ∧ cluster_of (cluster_embeddings (spec_sorted_read dbC6) (17/25) 2) 1 0
        = some none
    ∧ cluster_embeddings dbC6 (17/25) 2
        ≠ cluster_embeddings (spec_sorted_read dbC6) (17/25) 2 := by
  have h1 : cluster_of (cluster_embeddings dbC6 (17/25) 2) 1 0
      = some (some "C00000") := by
    rw [c6_pass_stored]
    show face_cluster (apply_labels [[(3, 0), (1, 0)], [(2, 0)]] 2 dbC6) 1 0
      = some (some "C00000")
    unfold apply_labels
    rw [apply_labels_aux_hits 2 1 0 [[(3, 0), (1, 0)], [(2, 0)]] 0 0 dbC6
        [(3, 0), (1, 0)] rfl (by decide) (by decide)
        (by
          intro cj m' hg hne
          cases cj with
          | zero => exact absurd rfl hne
          | succ k =>
              cases k with
              | zero =>
                  rw [List.get?_cons_succ, List.get?_cons_zero,
                    Option.some.injEq] at hg
                  rw [← hg]
                  decide
              | succ j => simp at hg)]
    rfl
  have h2 : cluster_of (cluster_embeddings (spec_sorted_read dbC6) (17/25) 2) 1 0
      = some none := by
    rw [spec_sorted_read_dbC6, c6_pass_sorted]
    show face_cluster (apply_labels [[(1, 0)], [(2, 0), (3, 0)]] 2 dbC6sorted) 1 0
      = some none
    unfold apply_labels
    rw [apply_labels_aux_misses 2 1 0 [[(1, 0)], [(2, 0), (3, 0)]] 0 dbC6sorted
        (by
          intro cj m' hg hlen
          cases cj with
          | zero =>
              rw [List.get?_cons_zero, Option.some.injEq] at hg
              rw [← hg] at hlen
              simp at hlen
          | succ k =>
              cases k with
              | zero =>
                  rw [List.get?_cons_succ, List.get?_cons_zero,
                    Option.some.injEq] at hg
                  rw [← hg]
                  decide
              | succ j => simp at hg)]
    rfl
  refine ⟨h1, h2, ?_⟩
  intro heq
  rw [heq] at h1
  exact absurd (h1.symm.trans h2) (by simp)

theorem spec_sorted_read_of_sorted :
    ∀ l : List FaceRow, List.Pairwise (fun a b => key_le a b = true) l →
      spec_sorted_read l = l := by
  intro l
  induction l with
  | nil => intro _; rfl
  | cons x xs ih =>
      intro h
      rcases List.pairwise_cons.1 h with ⟨hx, hxs⟩
      show ordered_insert_face x (spec_sorted_read xs) = x :: xs
      rw [ih hxs]
      cases xs with
      | nil => rfl
      | cons y ys =>
          show (if key_le x y then x :: y :: ys else y :: ordered_insert_face x ys)
            = x :: y :: ys
          rw [if_pos (hx y (List.mem_cons_self y ys))]

/-- Claim C6 (amended).  The clustering pass reads `face_boxes` in the
order the store returns it (the query has no `ORDER BY`), and the pass is
a deterministic function of that stored sequence; only when the stored
order already is ascending `(photo_id, face_id)` does the pass coincide
with the spec's ascending-order pass.  For differently ordered storage of
the same rows the partitions can differ (see the counterexample). -/
theorem C6_amended_order (db : List FaceRow) (thr : ℝ) (minEx : Nat)
    (h : List.Pairwise (fun a b => key_le a b = true) db) :
    cluster_embeddings db thr minEx
      = cluster_embeddings (spec_sorted_read db) thr minEx := by
  rw [spec_sorted_read_of_sorted db h]

/-- Witness for C6 (amended) at an already-sorted table. -/
theorem C6_amended_order_witness :
    cluster_embeddings dbC6sorted (17/25) 2
      = cluster_embeddings (spec_sorted_read dbC6sorted) (17/25) 2 :=
  C6_amended_order dbC6sorted (17/25) 2 (by
    constructor
    · intro b hb
      rcases List.mem_cons.1 hb with h1 | h1
      · rw [h1]; decide
      · rw [List.mem_singleton.1 h1]; decide
    constructor
    · intro b hb
      rw [List.mem_singleton.1 hb]
      decide
    exact List.pairwise_singleton _ _)
